import Mathlib

/-!
Verification development for the django-evolution schema-evolution engine.

The definitions below are a shallow embedding of the core source files of the
repository:

* `signature.py` — the class-based signature model (`ProjectSignature`,
  `AppSignature`, `ModelSignature`, `IndexSignature`, `FieldSignature`)
  with its `diff`, `__eq__`, and `has_unique_together_changed` logic;
* `mutations.py` — the dictionary-based project signature manipulated by
  mutation `simulate` methods (`AddField`, `DeleteField`, `RenameField`,
  `ChangeField`, `DeleteApplication`);
* `evolve.py` — the `get_mutations` filtering stage and the
  `Evolver.queue_task` queue guards.

Python dictionaries are embedded as association lists with insertion-order
semantics (assignment replaces in place or appends at the end; deletion
removes the entry).  In-place mutation with exceptions is embedded as a
pure function returning the post-mutation state together with an optional
error, so that partially-applied updates made before a raise remain
observable.  Python truthiness is modelled explicitly where the source
relies on it.
-/

namespace DjangoEvolution
/-- A Python value as stored in field-attribute maps. -/
inductive PyVal where
  | vnone
  | vbool (b : Bool)
  | vint (n : Int)
  | vstr (s : String)
deriving DecidableEq, Repr

/-- Python truthiness of an attribute value. -/
def PyVal.truthy : PyVal → Bool
  | .vnone => false
  | .vbool b => b
  | .vint n => n != 0
  | .vstr s => !s.isEmpty

/-- Python truthiness of an optional string (None and the empty string are
falsy). -/
def optTruthy : Option String → Bool
  | none => false
  | some s => !s.isEmpty

/-- Dictionary lookup (`d[k]` / `d.get(k)`) on an association list. -/
def dictGet {α : Type} : List (String × α) → String → Option α
  | [], _ => none
  | (k, v) :: rest, key => if k == key then some v else dictGet rest key

/-- Dictionary lookup with a default (`d.get(k, default)`). -/
def dictGetD {α : Type} (l : List (String × α)) (key : String) (dflt : α) : α :=
  (dictGet l key).getD dflt

/-- Dictionary assignment (`d[k] = v`): replaces the value in place when the
key is present, appends at the end otherwise. -/
def dictSet {α : Type} : List (String × α) → String → α → List (String × α)
  | [], key, val => [(key, val)]
  | (k, v) :: rest, key, val =>
    if k == key then (key, val) :: rest else (k, v) :: dictSet rest key val

/-- Dictionary deletion (`del d[k]` / `d.pop(k, None)`): removes the entry
when present, identity otherwise. -/
def dictDel {α : Type} : List (String × α) → String → List (String × α)
  | [], _ => []
  | (k, v) :: rest, key => if k == key then rest else (k, v) :: dictDel rest key

/-- Whether the keys of an association list are pairwise distinct, as is
guaranteed for a Python dictionary. -/
def keysNodup {α : Type} : List (String × α) → Bool
  | [] => true
  | (k, _) :: rest => !(rest.any (·.1 == k)) && keysNodup rest

/-- Whether the images of the elements under a naming function are pairwise
distinct.  Models the dictionary invariant that signature objects stored in a
`ProjectSignature`, `AppSignature` or `ModelSignature` are keyed by their
unique identifier. -/
def nodupBy {α : Type} (f : α → String) : List α → Bool
  | [] => true
  | x :: rest => !(rest.any (fun y => f y == f x)) && nodupBy f rest

/-- Insertion into a sorted list of strings, ascending. -/
def insertSorted (s : String) : List String → List String
  | [] => [s]
  | x :: xs => if s ≤ x then s :: x :: xs else x :: insertSorted s xs

/-- Ascending sort of a list of strings (models Python `sorted`). -/
def sortStrings (l : List String) : List String := l.foldr insertSorted []

/-- Keep-first deduplication of a list of strings (models iterating a Python
set built from the list; the final order is irrelevant in context because the
result is sorted afterwards). -/
def dedupStr : List String → List String
  | [] => []
  | s :: rest => s :: (dedupStr rest).filter (fun t => t != s)

/-- Elementwise list equality with a custom element comparison; models Python
list `==`, which compares lengths and then elements via their `__eq__`. -/
def listEqBy {α : Type} (eq : α → α → Bool) : List α → List α → Bool
  | [], [] => true
  | x :: xs, y :: ys => eq x y && listEqBy eq xs ys
  | _, _ => false

/-- Set equality over lists of string tuples (models Python `set(a) == set(b)`
for hashable tuples, where equality is extensional membership). -/
def tupleSetEq (a b : List (List String)) : Bool :=
  a.all (fun t => b.contains t) && b.all (fun t => a.contains t)

/-!
## Class-based signature model (`signature.py`)
-/

/-- A Django field class, as stored in `FieldSignature.field_type`.  Only
`ManyToManyField` needs to be distinguished structurally by the mutation
logic; every other class is carried by name. -/
inductive FieldType where
  | ManyToManyField
  | named (name : String)
deriving DecidableEq, Repr

/-- The global star-key attribute defaults of
`FieldSignature._ATTRIBUTE_DEFAULTS` (`django.conf.global_settings.DEFAULT_TABLESPACE`
is the empty string). -/
def starAttributeDefaults : List (String × PyVal) :=
  [("primary_key", .vbool false),
   ("max_length", .vnone),
   ("unique", .vbool false),
   ("null", .vbool false),
   ("db_index", .vbool false),
   ("db_column", .vnone),
   ("db_tablespace", .vstr "")]

/-- The per-field-type overrides of `FieldSignature._ATTRIBUTE_DEFAULTS`. -/
def typeAttributeDefaults : FieldType → List (String × PyVal)
  | .ManyToManyField => [("db_table", .vnone)]
  | .named "DecimalField" => [("max_digits", .vnone), ("decimal_places", .vnone)]
  | .named "ForeignKey" => [("db_index", .vbool true)]
  | .named "OneToOneField" => [("db_index", .vbool true)]
  | .named _ => []

/-- Signature information for a field (`FieldSignature`). -/
structure FieldSignature where
  field_name : String
  field_type : FieldType
  field_attrs : List (String × PyVal)
  related_model : Option String
deriving DecidableEq, Repr

/-- Embeds `FieldSignature.get_attr_default`: type-specific default table first,
then the global table, else Python `None`. -/
def FieldSignature.getAttrDefault (f : FieldSignature) (attr : String) : PyVal :=
  match dictGet (typeAttributeDefaults f.field_type) attr with
  | some v => v
  | none => (dictGet starAttributeDefaults attr).getD .vnone

/-- Embeds `FieldSignature.get_attr_value` with `use_default=True`. -/
def FieldSignature.getAttrValue (f : FieldSignature) (attr : String) : PyVal :=
  match dictGet f.field_attrs attr with
  | some v => v
  | none => f.getAttrDefault attr

/-- Dictionary equality of two attribute maps (`dict.__eq__`), assuming the
dictionary invariant of distinct keys. -/
def attrsDictEq (a b : List (String × PyVal)) : Bool :=
  a.all (fun p => match dictGet b p.1 with
                  | some v => v == p.2
                  | none => false) &&
  b.all (fun p => (dictGet a p.1).isSome)

/-- Embeds `FieldSignature.__eq__`. -/
def FieldSignature.pyEq (a b : FieldSignature) : Bool :=
  a.field_name == b.field_name &&
  a.field_type == b.field_type &&
  attrsDictEq a.field_attrs b.field_attrs &&
  a.related_model == b.related_model

/-- Embeds `FieldSignature.diff(old_field_sig)`.  `self` is the new signature.  The
comparison of `get_internal_type()` between two distinct field classes depends
on Django field classes that are external to this repository, so it is
abstracted as the parameter `internalTypeDiffers` (the source also treats an
unresolvable comparison as differing). -/
def FieldSignature.fdiff (internalTypeDiffers : FieldType → FieldType → Bool)
    (self old : FieldSignature) : List String :=
  let attrKeys := dedupStr (old.field_attrs.map (·.1) ++ self.field_attrs.map (·.1))
  let changed := attrKeys.filter (fun a => self.getAttrValue a != old.getAttrValue a)
  let changed := if old.field_type != self.field_type &&
                    internalTypeDiffers old.field_type self.field_type
                 then changed ++ ["field_type"] else changed
  let changed := if old.related_model != self.related_model
                 then changed ++ ["related_model"] else changed
  sortStrings changed

/-- Signature information for an explicit index (`IndexSignature`). -/
structure IndexSignature where
  fields : List String
  name : Option String
deriving DecidableEq, Repr

/-- Python truthiness of an index name (`not self.name`). -/
def nameFalsy : Option String → Bool
  | none => true
  | some s => s.isEmpty

/-- Embeds `IndexSignature.__eq__`: unset and empty names are considered equal. -/
def IndexSignature.pyEq (a b : IndexSignature) : Bool :=
  ((nameFalsy a.name && nameFalsy b.name) || a.name == b.name) &&
  a.fields == b.fields

/-- Python `repr` of an optional string (`None` versus a quoted string). -/
def pyReprOptStr : Option String → String
  | none => "None"
  | some s => "\x27" ++ s ++ "\x27"

/-- Python `repr` of a list of strings. -/
def pyReprStrList (l : List String) : String :=
  "[" ++ String.intercalate ", " (l.map (fun s => "\x27" ++ s ++ "\x27")) ++ "]"

/-- Embeds `IndexSignature.__repr__`; `IndexSignature.__hash__` is `hash(repr(self))`,
so the repr string stands in for the hash value in this model (hashes of
values with equal reprs are equal; distinct reprs give distinct string
hashes for the inputs considered here). -/
def IndexSignature.pyRepr (i : IndexSignature) : String :=
  "<IndexSignature(name=" ++ pyReprOptStr i.name ++ ", fields=" ++
    pyReprStrList i.fields ++ ")>"

/-- Equality of two Python sets of `IndexSignature`s, as evaluated by the
interpreter: membership first locates a hash bucket (`__hash__`, i.e. the
repr), then confirms with `__eq__`. -/
def indexSigSetEq (a b : List IndexSignature) : Bool :=
  a.all (fun x => b.any (fun y => y.pyRepr == x.pyRepr && y.pyEq x)) &&
  b.all (fun x => a.any (fun y => y.pyRepr == x.pyRepr && y.pyEq x))

/-- A `unique_together` / `index_together` value as supplied to the
`ModelSignature` constructor: either a single flat tuple of field names or a
list/tuple of tuples (an empty value is the same in both shapes, matching
Python falsiness). -/
inductive TogetherInput where
  | flat (fields : List String)
  | nested (entries : List (List String))
deriving DecidableEq, Repr

/-- Embeds `ModelSignature._normalize_together`. -/
def normalizeTogether : TogetherInput → List (List String)
  | .flat [] => []
  | .flat fields => [fields]
  | .nested [] => []
  | .nested entries => entries

/-- Signature information for a model (`ModelSignature`).  The stored
`unique_together` / `index_together` values are kept in the normalized
list-of-tuples form produced by the constructor. -/
structure ModelSignature where
  model_name : String
  table_name : Option String
  db_tablespace : Option String
  index_together : List (List String)
  pk_column : Option String
  unique_together : List (List String)
  index_sigs : List IndexSignature
  field_sigs : List FieldSignature
  unique_together_applied : Bool
deriving DecidableEq, Repr

/-- Embeds `ModelSignature.get_field_sig` (fields are keyed by their name). -/
def ModelSignature.getFieldSig (m : ModelSignature) (field_name : String) :
    Option FieldSignature :=
  m.field_sigs.find? (fun f => f.field_name == field_name)

/-- Embeds `ModelSignature.has_unique_together_changed(old_model_sig)`; `self` is the
new signature. -/
def ModelSignature.hasUniqueTogetherChanged (self old : ModelSignature) : Bool :=
  old.unique_together != self.unique_together ||
  ((!old.unique_together.isEmpty || !self.unique_together.isEmpty) &&
   !old.unique_together_applied)

/-- Dictionary equality of the field-signature maps of two models
(`dict.__eq__(self._field_sigs, other._field_sigs)`), where values compare
via `FieldSignature.__eq__`. -/
def fieldSigsDictEq (a b : List FieldSignature) : Bool :=
  a.all (fun f => match b.find? (fun g => g.field_name == f.field_name) with
                  | some g => g.pyEq f
                  | none => false) &&
  b.all (fun g => (a.find? (fun f => f.field_name == g.field_name)).isSome)

/-- Embeds `ModelSignature.__eq__`. -/
def ModelSignature.pyEq (self other : ModelSignature) : Bool :=
  self.table_name == other.table_name &&
  self.db_tablespace == other.db_tablespace &&
  indexSigSetEq self.index_sigs other.index_sigs &&
  tupleSetEq (normalizeTogether (.nested self.index_together))
             (normalizeTogether (.nested other.index_together)) &&
  self.model_name == other.model_name &&
  self.pk_column == other.pk_column &&
  fieldSigsDictEq self.field_sigs other.field_sigs &&
  !(self.hasUniqueTogetherChanged other)

/-- The result of `ModelSignature.diff`: a dictionary whose four possible
branches are included only when non-empty.  A branch field below is present
in the Python dictionary exactly when its list is non-empty. -/
structure ModelDiff where
  added : List String
  changed : List (String × List String)
  deleted : List String
  meta_changed : List String
deriving DecidableEq, Repr

/-- Whether the diff dictionary is empty, which by the omission rule holds
exactly when every branch is empty. -/
def ModelDiff.isEmpty (d : ModelDiff) : Bool :=
  d.added.isEmpty && d.changed.isEmpty && d.deleted.isEmpty && d.meta_changed.isEmpty

/-- Embeds `ModelSignature.diff(old_model_sig)`; `self` is the new signature. -/
def ModelSignature.diff (internalTypeDiffers : FieldType → FieldType → Bool)
    (self old : ModelSignature) : ModelDiff :=
  let changed_fields := old.field_sigs.filterMap (fun ofs =>
    match self.getFieldSig ofs.field_name with
    | some nfs =>
      let changed_field_attrs := FieldSignature.fdiff internalTypeDiffers nfs ofs
      if changed_field_attrs.isEmpty then none
      else some (ofs.field_name, changed_field_attrs)
    | none => none)
  let deleted_fields := old.field_sigs.filterMap (fun ofs =>
    if (self.getFieldSig ofs.field_name).isSome then none else some ofs.field_name)
  let added_fields := self.field_sigs.filterMap (fun fs =>
    if (old.getFieldSig fs.field_name).isSome then none else some fs.field_name)
  let meta_changed :=
    (if self.hasUniqueTogetherChanged old then ["unique_together"] else []) ++
    (if self.index_together != old.index_together then ["index_together"] else []) ++
    (if !(listEqBy IndexSignature.pyEq self.index_sigs old.index_sigs)
     then ["indexes"] else [])
  { added := added_fields,
    changed := changed_fields,
    deleted := deleted_fields,
    meta_changed := meta_changed }

/-- Signature information for an application (`AppSignature`); models are
keyed by their model name, as enforced by `add_model_sig`. -/
structure AppSignature where
  app_id : String
  model_sigs : List ModelSignature
deriving DecidableEq, Repr

/-- Embeds `AppSignature.get_model_sig`. -/
def AppSignature.getModelSig (a : AppSignature) (model_name : String) :
    Option ModelSignature :=
  a.model_sigs.find? (fun m => m.model_name == model_name)

/-- The result of `AppSignature.diff`, with the same omission rule as
`ModelDiff`. -/
structure AppDiff where
  changed : List (String × ModelDiff)
  deleted : List String
deriving DecidableEq, Repr

/-- Whether the app diff dictionary is empty. -/
def AppDiff.isEmpty (d : AppDiff) : Bool :=
  d.changed.isEmpty && d.deleted.isEmpty

/-- Embeds `AppSignature.diff(old_app_sig)`; `self` is the new signature. -/
def AppSignature.diff (internalTypeDiffers : FieldType → FieldType → Bool)
    (self old : AppSignature) : AppDiff :=
  let changed_models := old.model_sigs.filterMap (fun oms =>
    match self.getModelSig oms.model_name with
    | some nms =>
      let model_changes := ModelSignature.diff internalTypeDiffers nms oms
      if model_changes.isEmpty then none else some (oms.model_name, model_changes)
    | none => none)
  let deleted_models := old.model_sigs.filterMap (fun oms =>
    if (self.getModelSig oms.model_name).isSome then none else some oms.model_name)
  { changed := changed_models, deleted := deleted_models }

/-- Signature information for a project (`ProjectSignature`); applications
are keyed by their app id, as enforced by `add_app_sig`. -/
structure ProjectSignature where
  app_sigs : List AppSignature
deriving DecidableEq, Repr

/-- Embeds `ProjectSignature.get_app_sig`. -/
def ProjectSignature.getAppSig (p : ProjectSignature) (app_id : String) :
    Option AppSignature :=
  p.app_sigs.find? (fun a => a.app_id == app_id)

/-- The result of `ProjectSignature.diff`, with the same omission rule. -/
structure ProjectDiff where
  changed : List (String × AppDiff)
  deleted : List (String × List String)
deriving DecidableEq, Repr

/-- Whether the project diff dictionary is empty. -/
def ProjectDiff.isEmpty (d : ProjectDiff) : Bool :=
  d.changed.isEmpty && d.deleted.isEmpty

/-- Embeds `ProjectSignature.diff(old_project_sig)`; `self` is the new signature. -/
def ProjectSignature.diff (internalTypeDiffers : FieldType → FieldType → Bool)
    (self old : ProjectSignature) : ProjectDiff :=
  let changed_apps := old.app_sigs.filterMap (fun oas =>
    match self.getAppSig oas.app_id with
    | some nas =>
      let app_changes := AppSignature.diff internalTypeDiffers nas oas
      if app_changes.isEmpty then none else some (oas.app_id, app_changes)
    | none => none)
  let deleted_apps := old.app_sigs.filterMap (fun oas =>
    if (self.getAppSig oas.app_id).isSome then none
    else some (oas.app_id, oas.model_sigs.map (·.model_name)))
  { changed := changed_apps, deleted := deleted_apps }

/-- The dictionary-key invariant for a model signature: field signatures are
keyed by distinct field names. -/
def ModelSignature.wfFields (m : ModelSignature) : Bool :=
  nodupBy FieldSignature.field_name m.field_sigs

/-- The dictionary-key invariant for an application signature. -/
def AppSignature.wf (a : AppSignature) : Bool :=
  nodupBy ModelSignature.model_name a.model_sigs &&
  a.model_sigs.all ModelSignature.wfFields

/-- The dictionary-key invariant for a project signature. -/
def ProjectSignature.wf (p : ProjectSignature) : Bool :=
  nodupBy AppSignature.app_id p.app_sigs &&
  p.app_sigs.all AppSignature.wf

/-- Whether a model signature is outside the legacy pre-0.7 case: its
`unique_together` is empty or has been recorded as applied.  Models in the
legacy case are deliberately reported as changed by
`has_unique_together_changed` even when compared against themselves. -/
def ModelSignature.utNonLegacy (m : ModelSignature) : Bool :=
  m.unique_together.isEmpty || m.unique_together_applied

/-- Whether every model in a project signature is outside the legacy
`unique_together` case. -/
def ProjectSignature.utNonLegacy (p : ProjectSignature) : Bool :=
  p.app_sigs.all (fun a => a.model_sigs.all ModelSignature.utNonLegacy)

/-!
## Dictionary-based signature model used by mutation `simulate` (`mutations.py`)
-/

/-- A field signature dictionary as used in `mutations.py`: the
`field_type` entry holds the field class and the remaining entries hold
attribute values. -/
structure FieldSigDict where
  field_type : FieldType
  attrs : List (String × PyVal)
deriving DecidableEq, Repr

/-- A model signature dictionary: the `meta` sub-dictionary entries used by
the mutations under study plus the `fields` dictionary. -/
structure ModelSigDict where
  unique_together : List (List String)
  index_together : List (List String)
  db_table : Option String
  fields : List (String × FieldSigDict)
deriving DecidableEq, Repr

/-- An application signature dictionary: model name to model signature. -/
structure AppSigDict where
  models : List (String × ModelSigDict)
deriving DecidableEq, Repr

/-- A project signature dictionary: application label to application
signature (the `__version__` entry is not represented; the code under
study skips non-dictionary values). -/
structure ProjSigDict where
  apps : List (String × AppSigDict)
deriving DecidableEq, Repr

/-- Errors raised by mutation simulation. -/
inductive SimError where
  | simulationFailure (msg : String)
deriving DecidableEq, Repr

/-- The outcome of an in-place `simulate` call: the project signature after
every update performed before a potential raise, together with the raised
error if any. -/
abbrev SimOutcome := ProjSigDict × Option SimError

/-- Replacing a model signature inside a project signature, given the
application signature it lives in; models the effect of in-place updates to
a nested dictionary. -/
def ProjSigDict.withModel (proj : ProjSigDict) (app_label : String)
    (app_sig : AppSigDict) (model_name : String) (msig : ModelSigDict) :
    ProjSigDict :=
  { apps := dictSet proj.apps app_label
      { app_sig with models := dictSet app_sig.models model_name msig } }

/-- Looking a model signature up in a project signature. -/
def ProjSigDict.getModel (proj : ProjSigDict) (app_label model_name : String) :
    Option ModelSigDict :=
  match dictGet proj.apps app_label with
  | some app_sig => dictGet app_sig.models model_name
  | none => none

/-- The `DeleteField` mutation. -/
structure DeleteField where
  model_name : String
  field_name : String
deriving DecidableEq, Repr

/-- Embeds `DeleteField.simulate(app_label, proj_sig, database_sig, database)`.  The
`database` argument is unused by the source implementation.  The
`unique_together` rewrite drops the deleted field name from each tuple and
keeps the (possibly shortened) tuple; it happens in the same step that
removes the field from the field dictionary. -/
def DeleteField.simulate (m : DeleteField) (app_label : String)
    (proj : ProjSigDict) (_database : Option String) : SimOutcome :=
  match dictGet proj.apps app_label with
  | none => (proj, some (.simulationFailure
      ("Cannot delete the field \"" ++ m.field_name ++ "\" on model \"" ++
       app_label ++ "." ++ m.model_name ++
       "\". The application could not be found in the signature.")))
  | some app_sig =>
    match dictGet app_sig.models m.model_name with
    | none => (proj, some (.simulationFailure
        ("Cannot delete the field \"" ++ m.field_name ++ "\" on model \"" ++
         app_label ++ "." ++ m.model_name ++
         "\". The model could not be found in the signature.")))
    | some model_sig =>
      match dictGet model_sig.fields m.field_name with
      | none => (proj, some (.simulationFailure
          ("Cannot delete the field \"" ++ m.field_name ++ "\" on model \"" ++
           app_label ++ "." ++ m.model_name ++
           "\". The field could not be found in the signature.")))
      | some field =>
        if (dictGetD field.attrs "primary_key" (.vbool false)).truthy then
          (proj, some (.simulationFailure
            ("The field \"" ++ m.field_name ++ "\" on model \"" ++ app_label ++
             "." ++ m.model_name ++
             "\" is the primary key, and cannot be deleted.")))
        else
          let new_unique_together := model_sig.unique_together.map
            (fun ut => ut.filter (fun field_name => field_name != m.field_name))
          (proj.withModel app_label app_sig m.model_name
            { model_sig with
              unique_together := new_unique_together,
              fields := dictDel model_sig.fields m.field_name },
           none)

/-- The `AddField` mutation.  `initial` is `none` when no initial value was
supplied (Python `None`). -/
structure AddField where
  model_name : String
  field_name : String
  field_type : FieldType
  initial : Option PyVal
  field_attrs : List (String × PyVal)
deriving DecidableEq, Repr

/-- Modelled from the spec: `mutations.py` imports a flat
`ATTRIBUTE_DEFAULTS` table from `signature.py`, which is absent from this
copy of that file.  Per the spec, the global attribute default for `null`
is False (matching the `null` entry of the star defaults in
`FieldSignature._ATTRIBUTE_DEFAULTS`). -/
def ATTRIBUTE_DEFAULTS_null : PyVal := .vbool false

/-- Embeds `AddField.simulate`. -/
def AddField.simulate (m : AddField) (app_label : String)
    (proj : ProjSigDict) (_database : Option String) : SimOutcome :=
  match dictGet proj.apps app_label with
  | none => (proj, some (.simulationFailure
      ("Cannot add the field \"" ++ m.field_name ++ "\" to model \"" ++
       app_label ++ "." ++ m.model_name ++
       "\". The application could not be found in the signature.")))
  | some app_sig =>
    match dictGet app_sig.models m.model_name with
    | none => (proj, some (.simulationFailure
        ("Cannot add the field \"" ++ m.field_name ++ "\" to model \"" ++
         app_label ++ "." ++ m.model_name ++
         "\". The model could not be found in the signature.")))
    | some model_sig =>
      if (dictGet model_sig.fields m.field_name).isSome then
        (proj, some (.simulationFailure
          ("The model \"" ++ app_label ++ "." ++ m.model_name ++
           "\" already has a field named \"" ++ m.field_name ++ "\".")))
      else if m.field_type != .ManyToManyField &&
              !(dictGetD m.field_attrs "null" ATTRIBUTE_DEFAULTS_null).truthy &&
              m.initial.isNone then
        (proj, some (.simulationFailure
          ("Cannot create new field \"" ++ m.field_name ++ "\" on model \"" ++
           app_label ++ "." ++ m.model_name ++
           "\". A non-null initial value must be specified in the mutation.")))
      else
        (proj.withModel app_label app_sig m.model_name
          { model_sig with
            fields := dictSet model_sig.fields m.field_name
              { field_type := m.field_type, attrs := m.field_attrs } },
         none)

/-- The `RenameField` mutation. -/
structure RenameField where
  model_name : String
  old_field_name : String
  new_field_name : String
  db_column : Option String
  db_table : Option String
deriving DecidableEq, Repr

/-- Embeds `RenameField.simulate`.  Only the field entry itself is touched: its
`db_table`/`db_column` attribute is set or cleared and the key is renamed in
the field dictionary (`pop` then assignment, so a renamed field moves to the
end of the dictionary).  `unique_together` and `index_together` are not
updated. -/
def RenameField.simulate (m : RenameField) (app_label : String)
    (proj : ProjSigDict) (_database : Option String) : SimOutcome :=
  match dictGet proj.apps app_label with
  | none => (proj, some (.simulationFailure
      ("Cannot rename the field \"" ++ m.old_field_name ++ "\" on model \"" ++
       app_label ++ "." ++ m.model_name ++
       "\". The application could not be found in the signature.")))
  | some app_sig =>
    match dictGet app_sig.models m.model_name with
    | none => (proj, some (.simulationFailure
        ("Cannot rename the field \"" ++ m.old_field_name ++
         "\" on model \"" ++ app_label ++ "." ++ m.model_name ++
         "\". The model could not be found in the signature.")))
    | some model_sig =>
      match dictGet model_sig.fields m.old_field_name with
      | none => (proj, some (.simulationFailure
          ("Cannot rename the field \"" ++ m.old_field_name ++
           "\" on model \"" ++ app_label ++ "." ++ m.model_name ++
           "\". The field could not be found in the signature.")))
      | some field_sig =>
        let field_sig2 :=
          if field_sig.field_type == .ManyToManyField then
            if optTruthy m.db_table then
              { field_sig with attrs := (dictSet field_sig.attrs "db_table"
                  (.vstr (m.db_table.getD ""))) }
            else
              { field_sig with attrs := dictDel field_sig.attrs "db_table" }
          else if optTruthy m.db_column then
            { field_sig with attrs := (dictSet field_sig.attrs "db_column"
                (.vstr (m.db_column.getD ""))) }
          else
            { field_sig with attrs := dictDel field_sig.attrs "db_column" }
        (proj.withModel app_label app_sig m.model_name
          { model_sig with
            fields := dictSet (dictDel model_sig.fields m.old_field_name)
              m.new_field_name field_sig2 },
         none)

/-- The `ChangeField` mutation. -/
structure ChangeField where
  model_name : String
  field_name : String
  initial : Option PyVal
  field_attrs : List (String × PyVal)
deriving DecidableEq, Repr

/-- Merging every supplied attribute value into a field signature, in order
(`for field_attr, attr_value in self.field_attrs.items(): field_sig[...] =
...`). -/
def FieldSigDict.mergeAttrs (fs : FieldSigDict) (attrs : List (String × PyVal)) :
    FieldSigDict :=
  attrs.foldl (fun acc p => { acc with attrs := dictSet acc.attrs p.1 p.2 }) fs

/-- Embeds `ChangeField.simulate`.  The attribute merge into the project signature
happens before the null/initial precondition is checked, so a failing check
leaves the already-merged values in place. -/
def ChangeField.simulate (m : ChangeField) (app_label : String)
    (proj : ProjSigDict) (_database : Option String) : SimOutcome :=
  match dictGet proj.apps app_label with
  | none => (proj, some (.simulationFailure
      ("Cannot change the field \"" ++ m.field_name ++ "\" on model \"" ++
       app_label ++ "." ++ m.model_name ++
       "\". The application could not be found in the signature.")))
  | some app_sig =>
    match dictGet app_sig.models m.model_name with
    | none => (proj, some (.simulationFailure
        ("Cannot change the field \"" ++ m.field_name ++ "\" on model \"" ++
         app_label ++ "." ++ m.model_name ++
         "\". The model could not be found in the signature.")))
    | some model_sig =>
      match dictGet model_sig.fields m.field_name with
      | none => (proj, some (.simulationFailure
          ("Cannot change the field \"" ++ m.field_name ++ "\" on model \"" ++
           app_label ++ "." ++ m.model_name ++
           "\". The field could not be found in the signature.")))
      | some field_sig =>
        let merged := field_sig.mergeAttrs m.field_attrs
        let proj2 := proj.withModel app_label app_sig m.model_name
          { model_sig with fields := dictSet model_sig.fields m.field_name merged }
        let fails :=
          match dictGet m.field_attrs "null" with
          | some v => merged.field_type != .ManyToManyField && !v.truthy &&
              m.initial.isNone
          | none => false
        if fails then
          (proj2, some (.simulationFailure
            ("Cannot change the field \"" ++ m.field_name ++ "\" on model \"" ++
             app_label ++ "." ++ m.model_name ++
             "\". A non-null initial value needs to be specified in the " ++
             "mutation.")))
        else
          (proj2, none)

/-- Embeds `MonoBaseMutation.is_mutable` (used by `DeleteModel` inside
`DeleteApplication.simulate`): `db_name = database or
get_database_for_model_name(app_label, model_name); return db_name and
db_name == database`, reduced to a boolean as used in `if` position.  The
database router is external to the repository and abstracted as the
parameter `router`. -/
def monoIsMutable (router : String → String → Option String)
    (app_label model_name : String) (database : Option String) : Bool :=
  let db_name := if optTruthy database then database else router app_label model_name
  optTruthy db_name && db_name == database

/-- Embeds `DeleteApplication.simulate`.  Returns immediately when no database name
is bound; raises `SimulationFailure` when the application is absent from the
project signature; otherwise deletes every model signature for which a
`DeleteModel` mutation is mutable, iterating a snapshot of the model names.
The inner missing-model failure in the source can never trigger, because
each snapshot key is deleted exactly once from the dictionary. -/
def DeleteApplication.simulate (router : String → String → Option String)
    (app_label : String) (proj : ProjSigDict) (database : Option String) :
    SimOutcome :=
  if !optTruthy database then
    (proj, none)
  else
    match dictGet proj.apps app_label with
    | none => (proj, some (.simulationFailure
        ("Cannot delete the application \"" ++ app_label ++
         "\". It could not be found in the signature.")))
    | some app_sig =>
      let names := app_sig.models.map (·.1)
      let models2 := names.foldl
        (fun ms model_name =>
          if monoIsMutable router app_label model_name database then
            dictDel ms model_name
          else ms)
        app_sig.models
      ({ apps := dictSet proj.apps app_label { app_sig with models := models2 } },
       none)

/-- Embeds `DeleteApplication.is_mutable`: always `True`. -/
def DeleteApplication.isMutable : Bool := true

/-!
## The `get_mutations` filtering stage and the `Evolver` task queue (`evolve.py`)
-/

/-- A mutation as it appears in the list filtered by `get_mutations`: a
`RenameModel` (whose `model_name` attribute is the old model name), some
other model-scoped mutation carried by kind and target model name, or a
mutation with no `model_name` attribute (such as `SQLMutation` or
`DeleteApplication`). -/
inductive PreparedMutation where
  | renameModel (old_model_name new_model_name : String)
  | modelMutation (kind : String) (model_name : String)
  | appMutation (kind : String)
deriving DecidableEq, Repr

/-- The `model_name` attribute, when the mutation has one
(the `hasattr` check on `model_name`). -/
def PreparedMutation.modelName : PreparedMutation → Option String
  | .renameModel old_model_name _ => some old_model_name
  | .modelMutation _ model_name => some model_name
  | .appMutation _ => none

/-- Whether the mutation is a `RenameModel` (`isinstance(mutation,
RenameModel)`). -/
def PreparedMutation.isRenameModel : PreparedMutation → Bool
  | .renameModel _ _ => true
  | _ => false

/-- Python evaluation of `old_sig != model_sig` where the left operand is
the result of `old_app_sig.get_model_sig(...)` and may be `None`.  When it
is `None`, the interpreter falls back to `model_sig.__ne__(None)`, which
calls `ModelSignature.__eq__(model_sig, None)`; that body dereferences
`None.table_name` and raises `AttributeError`, modelled as the error case. -/
def pyNeOptModelSig (old : Option ModelSignature) (new : ModelSignature) :
    Except Unit Bool :=
  match old with
  | none => .error ()
  | some o => .ok (!(o.pyEq new))

/-- The first half of the `changed_models` computation in `get_mutations`:
the names of models in the new application signature whose stored
counterpart compares unequal.  Propagates the `AttributeError` raised when
a model has no stored counterpart. -/
def changedModelsFromNew (old_app : AppSignature) :
    List ModelSignature → Except Unit (List String)
  | [] => .ok []
  | model_sig :: rest =>
    match pyNeOptModelSig (old_app.getModelSig model_sig.model_name) model_sig with
    | .error e => .error e
    | .ok ne =>
      match changedModelsFromNew old_app rest with
      | .error e => .error e
      | .ok tail => .ok (if ne then model_sig.model_name :: tail else tail)

/-- The signature-comparison filtering stage at the end of `get_mutations`:
when both the stored and the current application signature exist, keep only
mutations with no `model_name`, mutations whose target model is in
`changed_models`, and `RenameModel` mutations; otherwise return the list
unchanged.  (The earlier part of `get_mutations` — loading the mutation list
from evolution modules or SQL files — is file-system dependent and is taken
here as the already-loaded `mutations` input.) -/
def getMutationsFilter (old_app_sig app_sig : Option AppSignature)
    (mutations : List PreparedMutation) : Except Unit (List PreparedMutation) :=
  match old_app_sig, app_sig with
  | some old_app, some new_app =>
    match changedModelsFromNew old_app new_app.model_sigs with
    | .error e => .error e
    | .ok changed1 =>
      let changed_models := changed1 ++ (old_app.model_sigs.filterMap
        (fun old_model_sig =>
          if (new_app.getModelSig old_model_sig.model_name).isNone then
            some old_model_sig.model_name
          else none))
      .ok (mutations.filter (fun mutation =>
        mutation.modelName.isNone ||
        (match mutation.modelName with
         | some n => changed_models.contains n
         | none => false) ||
        mutation.isRenameModel))
  | _, _ => .ok mutations

/-- The task-queue state of an `Evolver`: the ordered task ids of
`self._tasks` and the `self._tasks_prepared` flag. -/
structure EvolverTasks where
  tasks : List String
  tasks_prepared : Bool
deriving DecidableEq, Repr

/-- Errors raised by `Evolver.queue_task`. -/
inductive QueueError where
  | assertionError
  | queueEvolverTaskError
  | evolutionTaskAlreadyQueuedError
deriving DecidableEq, Repr

/-- Embeds `Evolver.queue_task(task)`: asserts the task id is truthy, raises
`QueueEvolverTaskError` once tasks have been prepared, raises
`EvolutionTaskAlreadyQueuedError` on a duplicate id, and otherwise appends
the task at the end of the queue. -/
def Evolver.queueTask (st : EvolverTasks) (task_id : String) :
    EvolverTasks × Option QueueError :=
  if task_id.isEmpty then
    (st, some .assertionError)
  else if st.tasks_prepared then
    (st, some .queueEvolverTaskError)
  else if st.tasks.contains task_id then
    (st, some .evolutionTaskAlreadyQueuedError)
  else
    ({ st with tasks := st.tasks ++ [task_id] }, none)

/-- Embeds `Evolver._prepare_tasks`: marks the queue as prepared (the per-task
`prepare` calls do not affect the queue state). -/
def Evolver.prepareTasks (st : EvolverTasks) : EvolverTasks :=
  { st with tasks_prepared := true }

/-!
## Concrete sample data for evaluations
-/

/-- A sample auto-generated primary-key field signature dictionary. -/
def sampleFieldId : FieldSigDict :=
  { field_type := .named "AutoField", attrs := [("primary_key", .vbool true)] }

/-- A sample plain integer field signature dictionary. -/
def sampleFieldInt : FieldSigDict :=
  { field_type := .named "IntegerField", attrs := [] }

/-- A sample model signature dictionary with fields `id`, `a`, `b` and
`unique_together` holding the single tuple of `a` and `b`. -/
def sampleModel : ModelSigDict :=
  { unique_together := [["a", "b"]],
    index_together := [],
    db_table := some "tests_testmodel",
    fields := [("id", sampleFieldId), ("a", sampleFieldInt), ("b", sampleFieldInt)] }

/-- A sample application signature dictionary holding `sampleModel`. -/
def sampleApp : AppSigDict := { models := [("TestModel", sampleModel)] }

/-- A sample project signature dictionary holding `sampleApp` under the
label `tests`. -/
def sampleProj : ProjSigDict := { apps := [("tests", sampleApp)] }

/-- A bare class-based model signature with the given name, empty
`unique_together`, and the applied flag set. -/
def mkBareModelSig (name : String) : ModelSignature :=
  { model_name := name,
    table_name := some name,
    db_tablespace := none,
    index_together := [],
    pk_column := some "id",
    unique_together := [],
    index_sigs := [],
    field_sigs := [],
    unique_together_applied := true }

/-- A class-based model signature with the given `unique_together` value and
applied flag, identical in all other respects to `mkBareModelSig "M"`. -/
def mkModelSigUT (ut : List (List String)) (applied : Bool) : ModelSignature :=
  { mkBareModelSig "M" with
    unique_together := ut,
    unique_together_applied := applied }

/-- A legacy model signature: non-empty `unique_together` that has never
been recorded as applied. -/
def legacyModelSig : ModelSignature := mkModelSigUT [["a", "b"]] false

/-- A class-based field signature for concrete project evaluations. -/
def c1Field : FieldSignature :=
  { field_name := "id",
    field_type := .named "AutoField",
    field_attrs := [("primary_key", .vbool true)],
    related_model := none }

/-- A non-legacy concrete model signature with a field and a non-empty,
applied `unique_together`. -/
def c1Model : ModelSignature :=
  { mkModelSigUT [["a", "b"]] true with field_sigs := [c1Field] }

/-- A concrete application signature for reflexivity evaluations. -/
def c1App : AppSignature := { app_id := "app", model_sigs := [c1Model] }

/-- A concrete project signature for reflexivity evaluations. -/
def c1Proj : ProjectSignature := { app_sigs := [c1App] }

/-- The stored application signature in the `get_mutations` scenario: only
model `A` exists. -/
def c2OldApp : AppSignature :=
  { app_id := "app", model_sigs := [mkBareModelSig "A"] }

/-- The current application signature in the `get_mutations` scenario:
model `B` is newly introduced next to the unchanged model `A`. -/
def c2NewApp : AppSignature :=
  { app_id := "app", model_sigs := [mkBareModelSig "A", mkBareModelSig "B"] }

/-- An explicit index whose name is unset (`None`). -/
def c10IdxNone : IndexSignature := { fields := ["f"], name := none }

/-- An explicit index whose name is the empty string. -/
def c10IdxEmpty : IndexSignature := { fields := ["f"], name := some "" }

/-- A model signature carrying the unnamed index. -/
def c10ModelA : ModelSignature :=
  { mkBareModelSig "M" with index_sigs := [c10IdxNone] }

/-- A model signature identical to `c10ModelA` except that its index has the
empty-string name. -/
def c10ModelB : ModelSignature :=
  { mkBareModelSig "M" with index_sigs := [c10IdxEmpty] }

theorem dictGet_dictSet_self {α : Type} (l : List (String × α)) (k : String) (v : α) :
    dictGet (dictSet l k v) k = some v := by
  induction l with
  | nil => simp [dictGet, dictSet]
  | cons p rest ih =>
    by_cases h : p.1 == k
    · simp [dictSet, dictGet, h]
    · simp only [dictSet, dictGet]
      rw [if_neg (by simpa using h)]
      simp only [dictGet]
      rw [if_neg (by simpa using h)]
      exact ih

theorem dictGet_dictSet_ne {α : Type} (l : List (String × α)) (k k2 : String) (v : α)
    (h : (k == k2) = false) : dictGet (dictSet l k v) k2 = dictGet l k2 := by
  induction l with
  | nil => simp [dictGet, dictSet, h]
  | cons p rest ih =>
    by_cases hp : p.1 == k
    · have hp1 : p.1 = k := by simpa using hp
      simp [dictSet, dictGet, hp, hp1, h]
    · simp only [dictSet, dictGet]
      rw [if_neg (by simpa using hp)]
      simp only [dictGet]
      by_cases hk : p.1 == k2
      · simp [hk]
      · rw [if_neg (by simpa using hk), if_neg (by simpa using hk)]
        exact ih

theorem dictGet_mem {α : Type} {l : List (String × α)} {k : String} {v : α}
    (h : dictGet l k = some v) : (k, v) ∈ l := by
  induction l with
  | nil => simp [dictGet] at h
  | cons p rest ih =>
    by_cases hp : p.1 == k
    · have hp1 : p.1 = k := by simpa using hp
      simp only [dictGet, hp, if_true] at h
      cases h
      cases p
      subst hp1
      exact List.mem_cons_self _ _
    · simp only [dictGet] at h
      rw [if_neg (by simpa using hp)] at h
      exact List.mem_cons_of_mem _ (ih h)

/-- Deleting every key of a dictionary (as `DeleteApplication.simulate` does
by iterating a snapshot of `app_sig.keys()`) leaves the dictionary empty. -/
theorem foldl_dictDel_keys {α : Type} :
    ∀ l : List (String × α), (l.map (·.1)).foldl (fun ms n => dictDel ms n) l = [] := by
  intro l
  induction l with
  | nil => rfl
  | cons p rest ih =>
    have hstep : dictDel (p :: rest) p.1 = rest := by
      cases p
      simp [dictDel]
    simpa [hstep] using ih

theorem find?_of_nodupBy {α : Type} (f : α → String) {l : List α} {x : α}
    (hnd : nodupBy f l = true) (hx : x ∈ l) :
    l.find? (fun y => f y == f x) = some x := by
  induction l with
  | nil => cases hx
  | cons h rest ih =>
    simp only [nodupBy, Bool.and_eq_true, Bool.not_eq_true'] at hnd
    rcases List.mem_cons.mp hx with rfl | hx2
    · simp [List.find?]
    · have hne : (f h == f x) = false := by
        by_contra hc
        have hfx : f h = f x := by
          cases hfe : f h == f x
          · exact absurd hfe hc
          · simpa using hfe
        have : rest.any (fun y => f y == f h) = true :=
          List.any_eq_true.mpr ⟨x, hx2, by simp [hfx]⟩
        rw [hnd.1] at this
        cases this
      rw [List.find?]
      rw [hne]
      exact ih hnd.2 hx2

theorem listEqBy_refl {α : Type} (eq : α → α → Bool) (hrefl : ∀ x, eq x x = true)
    (l : List α) : listEqBy eq l l = true := by
  induction l with
  | nil => rfl
  | cons x xs ih => simp [listEqBy, hrefl x, ih]

theorem FieldSignature.fdiff_refl (d : FieldType → FieldType → Bool)
    (f : FieldSignature) : FieldSignature.fdiff d f f = [] := by
  simp [FieldSignature.fdiff, bne_self_eq_false, sortStrings]

theorem IndexSignature.pyEq_refl (i : IndexSignature) : i.pyEq i = true := by
  simp [IndexSignature.pyEq]

theorem ModelSignature.hasUniqueTogetherChanged_self (m : ModelSignature)
    (hleg : m.utNonLegacy = true) : m.hasUniqueTogetherChanged m = false := by
  unfold ModelSignature.utNonLegacy at hleg
  unfold ModelSignature.hasUniqueTogetherChanged
  cases he : m.unique_together.isEmpty <;>
    simp_all [bne_self_eq_false]

theorem modelSig_diff_self (d : FieldType → FieldType → Bool)
    (m : ModelSignature) (hwf : m.wfFields = true) (hleg : m.utNonLegacy = true) :
    ModelSignature.diff d m m = ⟨[], [], [], []⟩ := by
  have hfind : ∀ ofs ∈ m.field_sigs, m.getFieldSig ofs.field_name = some ofs :=
    fun ofs h => find?_of_nodupBy FieldSignature.field_name hwf h
  simp only [ModelSignature.diff, ModelDiff.mk.injEq]
  refine ⟨?_, ?_, ?_, ?_⟩
  · exact List.filterMap_eq_nil_iff.mpr (fun fs hfs => by rw [hfind fs hfs]; simp)
  · exact List.filterMap_eq_nil_iff.mpr (fun ofs hofs => by
      rw [hfind ofs hofs]
      simp [FieldSignature.fdiff_refl])
  · exact List.filterMap_eq_nil_iff.mpr (fun ofs hofs => by rw [hfind ofs hofs]; simp)
  · simp [ModelSignature.hasUniqueTogetherChanged_self m hleg, bne_self_eq_false,
      listEqBy_refl IndexSignature.pyEq IndexSignature.pyEq_refl]

theorem appSig_diff_self (d : FieldType → FieldType → Bool)
    (a : AppSignature) (hwf : a.wf = true)
    (hleg : a.model_sigs.all ModelSignature.utNonLegacy = true) :
    AppSignature.diff d a a = ⟨[], []⟩ := by
  unfold AppSignature.wf at hwf
  simp only [Bool.and_eq_true] at hwf
  have hfind : ∀ oms ∈ a.model_sigs, a.getModelSig oms.model_name = some oms :=
    fun oms h => find?_of_nodupBy ModelSignature.model_name hwf.1 h
  simp only [AppSignature.diff, AppDiff.mk.injEq]
  refine ⟨?_, ?_⟩
  · exact List.filterMap_eq_nil_iff.mpr (fun oms homs => by
      rw [hfind oms homs]
      have hm := modelSig_diff_self d oms
        (by
          have := (List.all_eq_true.mp hwf.2) oms homs
          exact this)
        (by
          have := (List.all_eq_true.mp hleg) oms homs
          exact this)
      simp [hm, ModelDiff.isEmpty])
  · exact List.filterMap_eq_nil_iff.mpr (fun oms homs => by rw [hfind oms homs]; simp)

theorem projectSig_diff_self (d : FieldType → FieldType → Bool)
    (p : ProjectSignature) (hwf : p.wf = true) (hleg : p.utNonLegacy = true) :
    ProjectSignature.diff d p p = ⟨[], []⟩ := by
  unfold ProjectSignature.wf at hwf
  unfold ProjectSignature.utNonLegacy at hleg
  simp only [Bool.and_eq_true] at hwf
  have hfind : ∀ oas ∈ p.app_sigs, p.getAppSig oas.app_id = some oas :=
    fun oas h => find?_of_nodupBy AppSignature.app_id hwf.1 h
  simp only [ProjectSignature.diff, ProjectDiff.mk.injEq]
  refine ⟨?_, ?_⟩
  · exact List.filterMap_eq_nil_iff.mpr (fun oas hoas => by
      rw [hfind oas hoas]
      have ha := appSig_diff_self d oas
        ((List.all_eq_true.mp hwf.2) oas hoas)
        ((List.all_eq_true.mp hleg) oas hoas)
      simp [ha, AppDiff.isEmpty])
  · exact List.filterMap_eq_nil_iff.mpr (fun oas hoas => by rw [hfind oas hoas]; simp)

theorem getModel_withModel (proj : ProjSigDict) (app_label : String)
    (app_sig : AppSigDict) (model_name : String) (msig : ModelSigDict) :
    (proj.withModel app_label app_sig model_name msig).getModel app_label
      model_name = some msig := by
  simp [ProjSigDict.withModel, ProjSigDict.getModel, dictGet_dictSet_self]

theorem monoIsMutable_of_truthy (router : String → String → Option String)
    (app_label model_name : String) (database : Option String)
    (h : optTruthy database = true) :
    monoIsMutable router app_label model_name database = true := by
  simp [monoIsMutable, h]

theorem FieldSigDict.mergeAttrs_field_type (fs : FieldSigDict)
    (attrs : List (String × PyVal)) :
    (fs.mergeAttrs attrs).field_type = fs.field_type := by
  induction attrs generalizing fs with
  | nil => rfl
  | cons p rest ih => exact ih _

theorem FieldSigDict.mergeAttrs_lookup_of_absent (fs : FieldSigDict)
    (attrs : List (String × PyVal)) (k : String)
    (h : attrs.any (·.1 == k) = false) :
    dictGet (fs.mergeAttrs attrs).attrs k = dictGet fs.attrs k := by
  induction attrs generalizing fs with
  | nil => rfl
  | cons p rest ih =>
    simp only [List.any_cons, Bool.or_eq_false_iff] at h
    rw [show fs.mergeAttrs (p :: rest) =
      FieldSigDict.mergeAttrs { fs with attrs := dictSet fs.attrs p.1 p.2 } rest
      from rfl]
    rw [ih _ h.2]
    exact dictGet_dictSet_ne fs.attrs p.1 k p.2 h.1

theorem FieldSigDict.mergeAttrs_lookup (fs : FieldSigDict)
    (attrs : List (String × PyVal)) (k : String) (v : PyVal)
    (hnd : keysNodup attrs = true) (h : dictGet attrs k = some v) :
    dictGet (fs.mergeAttrs attrs).attrs k = some v := by
  induction attrs generalizing fs with
  | nil => simp [dictGet] at h
  | cons p rest ih =>
    simp only [keysNodup, Bool.and_eq_true, Bool.not_eq_true'] at hnd
    rw [show fs.mergeAttrs (p :: rest) =
      FieldSigDict.mergeAttrs { fs with attrs := dictSet fs.attrs p.1 p.2 } rest
      from rfl]
    by_cases hk : p.1 == k
    · have hk1 : p.1 = k := by simpa using hk
      have hv : v = p.2 := by
        cases p
        simp only [dictGet] at h
        rw [if_pos hk] at h
        cases h
        rfl
      have habs : rest.any (·.1 == k) = false := by
        rw [← hk1]
        exact hnd.1
      rw [FieldSigDict.mergeAttrs_lookup_of_absent _ rest k habs, hv, ← hk1]
      exact dictGet_dictSet_self fs.attrs p.1 p.2
    · have hrest : dictGet rest k = some v := by
        cases p
        simp only [dictGet] at h
        rwa [if_neg (by simpa using hk)] at h
      exact ih _ hnd.2 hrest

/-- C7: `DeleteField.simulate` raises a `SimulationFailure` and leaves the
project signature unchanged when the application, model, or field is absent
from the signature, and — for every value of the `database` argument — when
the field signature has a truthy `primary_key` attribute, in which case the
field (and everything else) remains in the signature. -/
theorem c7_delete_field_primary_key :
    (∀ (m : DeleteField) (app_label : String) (proj : ProjSigDict)
       (database : Option String),
       dictGet proj.apps app_label = none →
       DeleteField.simulate m app_label proj database =
         (proj, some (.simulationFailure
           ("Cannot delete the field \"" ++ m.field_name ++ "\" on model \"" ++
            app_label ++ "." ++ m.model_name ++
            "\". The application could not be found in the signature.")))) ∧
    (∀ (m : DeleteField) (app_label : String) (proj : ProjSigDict)
       (database : Option String) (app_sig : AppSigDict),
       dictGet proj.apps app_label = some app_sig →
       dictGet app_sig.models m.model_name = none →
       (DeleteField.simulate m app_label proj database).1 = proj ∧
       (DeleteField.simulate m app_label proj database).2.isSome = true) ∧
    (∀ (m : DeleteField) (app_label : String) (proj : ProjSigDict)
       (database : Option String) (app_sig : AppSigDict)
       (model_sig : ModelSigDict),
       dictGet proj.apps app_label = some app_sig →
       dictGet app_sig.models m.model_name = some model_sig →
       dictGet model_sig.fields m.field_name = none →
       (DeleteField.simulate m app_label proj database).1 = proj ∧
       (DeleteField.simulate m app_label proj database).2.isSome = true) ∧
    (∀ (m : DeleteField) (app_label : String) (proj : ProjSigDict)
       (database : Option String) (app_sig : AppSigDict)
       (model_sig : ModelSigDict) (field : FieldSigDict),
       dictGet proj.apps app_label = some app_sig →
       dictGet app_sig.models m.model_name = some model_sig →
       dictGet model_sig.fields m.field_name = some field →
       (dictGetD field.attrs "primary_key" (.vbool false)).truthy = true →
       DeleteField.simulate m app_label proj database =
         (proj, some (.simulationFailure
           ("The field \"" ++ m.field_name ++ "\" on model \"" ++ app_label ++
            "." ++ m.model_name ++
            "\" is the primary key, and cannot be deleted.")))) := by
  refine ⟨?_, ?_, ?_, ?_⟩
  · intro m al proj db h
    simp [DeleteField.simulate, h]
  · intro m al proj db app_sig h1 h2
    simp [DeleteField.simulate, h1, h2]
  · intro m al proj db app_sig model_sig h1 h2 h3
    simp [DeleteField.simulate, h1, h2, h3]
  · intro m al proj db app_sig model_sig field h1 h2 h3 h4
    simp [DeleteField.simulate, h1, h2, h3, h4]

theorem c7_delete_field_primary_key_witness :
    (dictGet sampleProj.apps "tests" = some sampleApp ∧
     dictGet sampleApp.models "TestModel" = some sampleModel ∧
     dictGet sampleModel.fields "id" = some sampleFieldId ∧
     (dictGetD sampleFieldId.attrs "primary_key" (.vbool false)).truthy = true) ∧
    DeleteField.simulate ⟨"TestModel", "id"⟩ "tests" sampleProj (some "db") =
      (sampleProj, some (.simulationFailure
        ("The field \"id\" on model \"tests.TestModel\" is the primary key, " ++
         "and cannot be deleted."))) ∧
    DeleteField.simulate ⟨"TestModel", "id"⟩ "tests" sampleProj none =
      (sampleProj, some (.simulationFailure
        ("The field \"id\" on model \"tests.TestModel\" is the primary key, " ++
         "and cannot be deleted."))) ∧
    (DeleteField.simulate ⟨"Missing", "a"⟩ "tests" sampleProj none).2.isSome =
      true ∧
    (DeleteField.simulate ⟨"TestModel", "zz"⟩ "tests" sampleProj none).2.isSome =
      true ∧
    DeleteField.simulate ⟨"TestModel", "a"⟩ "nope" sampleProj none =
      (sampleProj, some (.simulationFailure
        ("Cannot delete the field \"a\" on model \"nope.TestModel\". The " ++
         "application could not be found in the signature."))) := by
  refine ⟨⟨rfl, rfl, rfl, rfl⟩, ?_, ?_, ?_, ?_, ?_⟩
  · exact c7_delete_field_primary_key.2.2.2 ⟨"TestModel", "id"⟩ "tests"
      sampleProj (some "db") sampleApp sampleModel sampleFieldId rfl rfl rfl rfl
  · exact c7_delete_field_primary_key.2.2.2 ⟨"TestModel", "id"⟩ "tests"
      sampleProj none sampleApp sampleModel sampleFieldId rfl rfl rfl rfl
  · exact (c7_delete_field_primary_key.2.1 ⟨"Missing", "a"⟩ "tests" sampleProj
      none sampleApp rfl rfl).2
  · exact (c7_delete_field_primary_key.2.2.1 ⟨"TestModel", "zz"⟩ "tests"
      sampleProj none sampleApp sampleModel rfl rfl rfl).2
  · exact c7_delete_field_primary_key.1 ⟨"TestModel", "a"⟩ "nope" sampleProj
      none rfl

/-- C8: `Evolver.queue_task` raises `QueueEvolverTaskError` for any task
queued after the tasks have been prepared, and raises
`EvolutionTaskAlreadyQueuedError` for a task whose id matches an
already-queued id (when the queue has not yet been prepared — the
prepared-queue guard is checked first); in both error cases the task queue
is unchanged. -/
theorem c8_queue_task_guards (st : EvolverTasks) (task_id : String)
    (hid : task_id.isEmpty = false) :
    Evolver.queueTask (Evolver.prepareTasks st) task_id =
      (Evolver.prepareTasks st, some .queueEvolverTaskError) ∧
    (st.tasks_prepared = false → st.tasks.contains task_id = true →
      Evolver.queueTask st task_id =
        (st, some .evolutionTaskAlreadyQueuedError)) := by
  constructor
  · simp [Evolver.queueTask, Evolver.prepareTasks, hid]
  · intro hp hc
    have hc2 : task_id ∈ st.tasks := by simpa using hc
    simp [Evolver.queueTask, hid, hp, hc2]

theorem c8_queue_task_guards_witness :
    ("evolve-app:tests" : String).isEmpty = false ∧
    (⟨["evolve-app:tests"], false⟩ : EvolverTasks).tasks_prepared = false ∧
    (⟨["evolve-app:tests"], false⟩ : EvolverTasks).tasks.contains
      "evolve-app:tests" = true ∧
    Evolver.queueTask (Evolver.prepareTasks ⟨["evolve-app:tests"], false⟩)
      "evolve-app:tests" =
      (Evolver.prepareTasks ⟨["evolve-app:tests"], false⟩,
       some .queueEvolverTaskError) ∧
    Evolver.queueTask ⟨["evolve-app:tests"], false⟩ "evolve-app:tests" =
      (⟨["evolve-app:tests"], false⟩, some .evolutionTaskAlreadyQueuedError) := by
  refine ⟨by decide, rfl, by decide, ?_, ?_⟩
  · exact (c8_queue_task_guards ⟨["evolve-app:tests"], false⟩ "evolve-app:tests"
      (by decide)).1
  · exact (c8_queue_task_guards ⟨["evolve-app:tests"], false⟩ "evolve-app:tests"
      (by decide)).2 rfl (by decide)

/-- C6: `AddField.simulate` (with the application and model present) raises
`SimulationFailure` when the named field already exists, raises
`SimulationFailure` when the field type is not `ManyToManyField`, the
effective `null` attribute is falsy and no initial value was supplied, and
otherwise inserts a field signature carrying the given field type and
attributes at the end of the field dictionary; in particular a
`ManyToManyField` needs no initial value.  In the error cases the signature
is unchanged. -/
theorem c6_add_field_simulate :
    (∀ (m : AddField) (app_label : String) (proj : ProjSigDict)
       (database : Option String) (app_sig : AppSigDict)
       (model_sig : ModelSigDict),
       dictGet proj.apps app_label = some app_sig →
       dictGet app_sig.models m.model_name = some model_sig →
       (dictGet model_sig.fields m.field_name).isSome = true →
       AddField.simulate m app_label proj database =
         (proj, some (.simulationFailure
           ("The model \"" ++ app_label ++ "." ++ m.model_name ++
            "\" already has a field named \"" ++ m.field_name ++ "\".")))) ∧
    (∀ (m : AddField) (app_label : String) (proj : ProjSigDict)
       (database : Option String) (app_sig : AppSigDict)
       (model_sig : ModelSigDict),
       dictGet proj.apps app_label = some app_sig →
       dictGet app_sig.models m.model_name = some model_sig →
       (dictGet model_sig.fields m.field_name).isSome = false →
       (m.field_type != FieldType.ManyToManyField) = true →
       (dictGetD m.field_attrs "null" ATTRIBUTE_DEFAULTS_null).truthy = false →
       m.initial = none →
       AddField.simulate m app_label proj database =
         (proj, some (.simulationFailure
           ("Cannot create new field \"" ++ m.field_name ++ "\" on model \"" ++
            app_label ++ "." ++ m.model_name ++
            "\". A non-null initial value must be specified in the mutation.")))) ∧
    (∀ (m : AddField) (app_label : String) (proj : ProjSigDict)
       (database : Option String) (app_sig : AppSigDict)
       (model_sig : ModelSigDict),
       dictGet proj.apps app_label = some app_sig →
       dictGet app_sig.models m.model_name = some model_sig →
       (dictGet model_sig.fields m.field_name).isSome = false →
       (m.field_type != FieldType.ManyToManyField &&
        !(dictGetD m.field_attrs "null" ATTRIBUTE_DEFAULTS_null).truthy &&
        m.initial.isNone) = false →
       AddField.simulate m app_label proj database =
         (proj.withModel app_label app_sig m.model_name
           { model_sig with
             fields := dictSet model_sig.fields m.field_name
               { field_type := m.field_type, attrs := m.field_attrs } },
          none)) := by
  refine ⟨?_, ?_, ?_⟩
  · intro m al proj db app_sig model_sig h1 h2 h3
    simp [AddField.simulate, h1, h2, h3]
  · intro m al proj db app_sig model_sig h1 h2 h3 h4 h5 h6
    simp [AddField.simulate, h1, h2, h3, h4, h5, h6]
  · intro m al proj db app_sig model_sig h1 h2 h3 h4
    simp only [AddField.simulate, h1, h2, h3]
    simp [h4]

theorem c6_add_field_simulate_witness :
    AddField.simulate ⟨"TestModel", "a", .named "IntegerField", none, []⟩
      "tests" sampleProj none =
      (sampleProj, some (.simulationFailure
        "The model \"tests.TestModel\" already has a field named \"a\".")) ∧
    AddField.simulate ⟨"TestModel", "c", .named "IntegerField", none, []⟩
      "tests" sampleProj none =
      (sampleProj, some (.simulationFailure
        ("Cannot create new field \"c\" on model \"tests.TestModel\". A " ++
         "non-null initial value must be specified in the mutation."))) ∧
    AddField.simulate
      ⟨"TestModel", "c", .ManyToManyField, none,
       [("related_model", .vstr "tests.Other")]⟩ "tests" sampleProj none =
      (sampleProj.withModel "tests" sampleApp "TestModel"
        { sampleModel with
          fields := dictSet sampleModel.fields "c"
            { field_type := .ManyToManyField,
              attrs := [("related_model", .vstr "tests.Other")] } },
       none) ∧
    AddField.simulate ⟨"TestModel", "c", .named "IntegerField", some (.vint 0),
        []⟩ "tests" sampleProj none =
      (sampleProj.withModel "tests" sampleApp "TestModel"
        { sampleModel with
          fields := dictSet sampleModel.fields "c"
            { field_type := .named "IntegerField", attrs := [] } },
       none) := by
  refine ⟨?_, ?_, ?_, ?_⟩
  · exact c6_add_field_simulate.1 ⟨"TestModel", "a", .named "IntegerField",
      none, []⟩ "tests" sampleProj none sampleApp sampleModel rfl rfl rfl
  · exact c6_add_field_simulate.2.1 ⟨"TestModel", "c", .named "IntegerField",
      none, []⟩ "tests" sampleProj none sampleApp sampleModel rfl rfl rfl rfl
      rfl rfl
  · exact c6_add_field_simulate.2.2 ⟨"TestModel", "c", .ManyToManyField, none,
      [("related_model", .vstr "tests.Other")]⟩ "tests" sampleProj none
      sampleApp sampleModel rfl rfl rfl (by decide)
  · exact c6_add_field_simulate.2.2 ⟨"TestModel", "c", .named "IntegerField",
      some (.vint 0), []⟩ "tests" sampleProj none sampleApp sampleModel rfl rfl
      rfl (by decide)

/-- C9: `ChangeField.simulate` is not atomic on failure: it first merges
every supplied attribute value into the field signature stored in the
project signature, and only then checks the null/initial precondition, so
when it raises `SimulationFailure` (changing `null` to False on a
non-many-to-many field with no initial value) the project signature already
carries all the merged attribute values, including `null = False`. -/
theorem c9_change_field_not_atomic (m : ChangeField) (app_label : String)
    (proj : ProjSigDict) (database : Option String) (app_sig : AppSigDict)
    (model_sig : ModelSigDict) (field_sig : FieldSigDict)
    (happ : dictGet proj.apps app_label = some app_sig)
    (hmodel : dictGet app_sig.models m.model_name = some model_sig)
    (hfield : dictGet model_sig.fields m.field_name = some field_sig)
    (hft : (field_sig.field_type != FieldType.ManyToManyField) = true)
    (hnull : dictGet m.field_attrs "null" = some (.vbool false))
    (hinit : m.initial = none)
    (hnd : keysNodup m.field_attrs = true) :
    (ChangeField.simulate m app_label proj database).2.isSome = true ∧
    (ChangeField.simulate m app_label proj database).1 =
      proj.withModel app_label app_sig m.model_name
        { model_sig with
          fields := dictSet model_sig.fields m.field_name
            (field_sig.mergeAttrs m.field_attrs) } ∧
    dictGet (field_sig.mergeAttrs m.field_attrs).attrs "null" =
      some (.vbool false) := by
  have hmergeft : (field_sig.mergeAttrs m.field_attrs).field_type =
      field_sig.field_type := FieldSigDict.mergeAttrs_field_type _ _
  have hfails : (match dictGet m.field_attrs "null" with
      | some v => (field_sig.mergeAttrs m.field_attrs).field_type !=
          FieldType.ManyToManyField && !v.truthy && m.initial.isNone
      | none => false) = true := by
    rw [hnull, hmergeft, hinit]
    simp [hft, PyVal.truthy]
  refine ⟨?_, ?_, ?_⟩
  · simp [ChangeField.simulate, happ, hmodel, hfield, hfails]
  · simp [ChangeField.simulate, happ, hmodel, hfield, hfails]
  · exact FieldSigDict.mergeAttrs_lookup field_sig m.field_attrs "null"
      (.vbool false) hnd hnull

theorem c9_change_field_not_atomic_witness :
    (dictGet sampleProj.apps "tests" = some sampleApp ∧
     dictGet sampleApp.models "TestModel" = some sampleModel ∧
     dictGet sampleModel.fields "a" = some sampleFieldInt ∧
     (sampleFieldInt.field_type != FieldType.ManyToManyField) = true ∧
     dictGet [("null", PyVal.vbool false), ("max_length", PyVal.vint 100)]
       "null" = some (.vbool false) ∧
     keysNodup [("null", PyVal.vbool false), ("max_length", PyVal.vint 100)] =
       true) ∧
    ((ChangeField.simulate
        ⟨"TestModel", "a", none,
         [("null", .vbool false), ("max_length", .vint 100)]⟩
        "tests" sampleProj none).2.isSome = true ∧
     (ChangeField.simulate
        ⟨"TestModel", "a", none,
         [("null", .vbool false), ("max_length", .vint 100)]⟩
        "tests" sampleProj none).1 =
       sampleProj.withModel "tests" sampleApp "TestModel"
         { sampleModel with
           fields := dictSet sampleModel.fields "a"
             (sampleFieldInt.mergeAttrs
               [("null", .vbool false), ("max_length", .vint 100)]) } ∧
     dictGet (sampleFieldInt.mergeAttrs
         [("null", .vbool false), ("max_length", .vint 100)]).attrs "null" =
       some (.vbool false)) :=
  ⟨⟨rfl, rfl, rfl, by decide, rfl, by decide⟩,
   c9_change_field_not_atomic
     ⟨"TestModel", "a", none, [("null", .vbool false), ("max_length", .vint 100)]⟩
     "tests" sampleProj none sampleApp sampleModel sampleFieldInt rfl rfl rfl
     (by decide) rfl rfl (by decide)⟩

/-- C5 (amended): `DeleteApplication.simulate` is a no-op whenever no truthy
database name is bound; when a database is bound and the application label is
absent from the project signature it raises `SimulationFailure` (rather than
tolerating the absence), leaving the signature unchanged; when the
application is present it deletes every model signature for which a
`DeleteModel` mutation is mutable — with a truthy database every model is
mutable, so the application is left present but empty; and `is_mutable`
always returns `True`. -/
theorem c5_delete_application_amended :
    (∀ (router : String → String → Option String) (app_label : String)
       (proj : ProjSigDict) (database : Option String),
       optTruthy database = false →
       DeleteApplication.simulate router app_label proj database =
         (proj, none)) ∧
    (∀ (router : String → String → Option String) (app_label : String)
       (proj : ProjSigDict) (database : Option String),
       optTruthy database = true →
       dictGet proj.apps app_label = none →
       DeleteApplication.simulate router app_label proj database =
         (proj, some (.simulationFailure
           ("Cannot delete the application \"" ++ app_label ++
            "\". It could not be found in the signature.")))) ∧
    (∀ (router : String → String → Option String) (app_label : String)
       (proj : ProjSigDict) (database : Option String) (app_sig : AppSigDict),
       optTruthy database = true →
       dictGet proj.apps app_label = some app_sig →
       DeleteApplication.simulate router app_label proj database =
         ({ apps := dictSet proj.apps app_label { app_sig with models := [] } },
          none)) ∧
    DeleteApplication.isMutable = true := by
  refine ⟨?_, ?_, ?_, rfl⟩
  · intro router al proj db h
    simp [DeleteApplication.simulate, h]
  · intro router al proj db h h2
    simp [DeleteApplication.simulate, h, h2]
  · intro router al proj db app_sig h h2
    have hfold : (app_sig.models.map (·.1)).foldl
        (fun ms model_name =>
          if monoIsMutable router al model_name db then dictDel ms model_name
          else ms)
        app_sig.models = [] := by
      have hcong : ∀ (l : List (String × ModelSigDict)) (ks : List String),
          ks.foldl (fun ms model_name =>
            if monoIsMutable router al model_name db then dictDel ms model_name
            else ms) l = ks.foldl (fun ms n => dictDel ms n) l := by
        intro l ks
        induction ks generalizing l with
        | nil => rfl
        | cons k rest ih =>
          simp only [List.foldl_cons, monoIsMutable_of_truthy router al k db h,
            if_true]
          exact ih _
      rw [hcong]
      exact foldl_dictDel_keys app_sig.models
    simp [DeleteApplication.simulate, h, h2, hfold]

theorem c5_counterexample :
    DeleteApplication.simulate (fun _ _ => none) "gone"
      (⟨[]⟩ : ProjSigDict) (some "db_multi") =
      (⟨[]⟩, some (.simulationFailure
        ("Cannot delete the application \"gone\". It could not be found in " ++
         "the signature."))) := by
  rfl

theorem c5_delete_application_amended_witness :
    (optTruthy (none : Option String) = false ∧
     optTruthy (some "db_multi") = true ∧
     dictGet sampleProj.apps "gone" = none ∧
     dictGet sampleProj.apps "tests" = some sampleApp) ∧
    DeleteApplication.simulate (fun _ _ => none) "tests" sampleProj none =
      (sampleProj, none) ∧
    DeleteApplication.simulate (fun _ _ => none) "gone" sampleProj
      (some "db_multi") =
      (sampleProj, some (.simulationFailure
        ("Cannot delete the application \"gone\". It could not be found in " ++
         "the signature."))) ∧
    DeleteApplication.simulate (fun _ _ => none) "tests" sampleProj
      (some "db_multi") =
      ({ apps := dictSet sampleProj.apps "tests" { sampleApp with models := [] } },
       none) ∧
    DeleteApplication.isMutable = true := by
  refine ⟨⟨rfl, rfl, rfl, rfl⟩, ?_, ?_, ?_, ?_⟩
  · exact c5_delete_application_amended.1 (fun _ _ => none) "tests" sampleProj
      none rfl
  · exact c5_delete_application_amended.2.1 (fun _ _ => none) "gone" sampleProj
      (some "db_multi") rfl rfl
  · exact c5_delete_application_amended.2.2.1 (fun _ _ => none) "tests"
      sampleProj (some "db_multi") sampleApp rfl rfl
  · exact c5_delete_application_amended.2.2.2

/-- C4 (amended): for `DeleteField.simulate`, the deleted field name is
removed from every `unique_together` tuple — shrinking the tuple rather than
preserving its arity — in the same simulation step that removes the field
from the field dictionary, and `index_together` is left untouched;
`RenameField.simulate` performs no field-name substitution at all in
`unique_together` or `index_together`, whose entries keep the old field
name. -/
theorem c4_together_update_amended :
    (∀ (m : DeleteField) (app_label : String) (proj : ProjSigDict)
       (database : Option String) (app_sig : AppSigDict)
       (model_sig : ModelSigDict) (field : FieldSigDict),
       dictGet proj.apps app_label = some app_sig →
       dictGet app_sig.models m.model_name = some model_sig →
       dictGet model_sig.fields m.field_name = some field →
       (dictGetD field.attrs "primary_key" (.vbool false)).truthy = false →
       DeleteField.simulate m app_label proj database =
         (proj.withModel app_label app_sig m.model_name
           { model_sig with
             unique_together := model_sig.unique_together.map
               (fun ut => ut.filter (fun field_name => field_name != m.field_name)),
             fields := dictDel model_sig.fields m.field_name },
          none)) ∧
    (∀ (m : RenameField) (app_label : String) (proj : ProjSigDict)
       (database : Option String) (app_sig : AppSigDict)
       (model_sig : ModelSigDict) (field_sig : FieldSigDict),
       dictGet proj.apps app_label = some app_sig →
       dictGet app_sig.models m.model_name = some model_sig →
       dictGet model_sig.fields m.old_field_name = some field_sig →
       ((RenameField.simulate m app_label proj database).1.getModel app_label
          m.model_name).map ModelSigDict.unique_together =
         some model_sig.unique_together ∧
       ((RenameField.simulate m app_label proj database).1.getModel app_label
          m.model_name).map ModelSigDict.index_together =
         some model_sig.index_together ∧
       (RenameField.simulate m app_label proj database).2 = none) := by
  constructor
  · intro m al proj db app_sig model_sig field h1 h2 h3 h4
    simp [DeleteField.simulate, h1, h2, h3, h4]
  · intro m al proj db app_sig model_sig field_sig h1 h2 h3
    refine ⟨?_, ?_, ?_⟩ <;>
      simp [RenameField.simulate, h1, h2, h3, getModel_withModel]

theorem c4_counterexample :
    ((DeleteField.simulate ⟨"TestModel", "a"⟩ "tests" sampleProj
        (some "db")).1.getModel "tests" "TestModel").map
      ModelSigDict.unique_together = some [["b"]] ∧
    sampleModel.unique_together = [["a", "b"]] ∧
    ((RenameField.simulate ⟨"TestModel", "a", "c", none, none⟩ "tests"
        sampleProj (some "db")).1.getModel "tests" "TestModel").map
      ModelSigDict.unique_together = some [["a", "b"]] := by
  refine ⟨rfl, rfl, rfl⟩

theorem c4_together_update_amended_witness :
    (dictGet sampleProj.apps "tests" = some sampleApp ∧
     dictGet sampleApp.models "TestModel" = some sampleModel ∧
     dictGet sampleModel.fields "a" = some sampleFieldInt ∧
     (dictGetD sampleFieldInt.attrs "primary_key" (.vbool false)).truthy =
       false) ∧
    DeleteField.simulate ⟨"TestModel", "a"⟩ "tests" sampleProj (some "db") =
      (sampleProj.withModel "tests" sampleApp "TestModel"
        { sampleModel with
          unique_together := sampleModel.unique_together.map
            (fun ut => ut.filter (fun field_name => field_name != "a")),
          fields := dictDel sampleModel.fields "a" },
       none) ∧
    (((RenameField.simulate ⟨"TestModel", "a", "c", none, none⟩ "tests"
         sampleProj (some "db")).1.getModel "tests" "TestModel").map
       ModelSigDict.unique_together = some sampleModel.unique_together ∧
     ((RenameField.simulate ⟨"TestModel", "a", "c", none, none⟩ "tests"
         sampleProj (some "db")).1.getModel "tests" "TestModel").map
       ModelSigDict.index_together = some sampleModel.index_together ∧
     (RenameField.simulate ⟨"TestModel", "a", "c", none, none⟩ "tests"
        sampleProj (some "db")).2 = none) := by
  refine ⟨⟨rfl, rfl, rfl, rfl⟩, ?_, ?_⟩
  · exact c4_together_update_amended.1 ⟨"TestModel", "a"⟩ "tests" sampleProj
      (some "db") sampleApp sampleModel sampleFieldInt rfl rfl rfl rfl
  · exact c4_together_update_amended.2 ⟨"TestModel", "a", "c", none, none⟩
      "tests" sampleProj (some "db") sampleApp sampleModel sampleFieldInt rfl
      rfl rfl

/-- C3 (amended): for any two `ModelSignature`s with identical non-empty
`unique_together` where the applied flag of the right (old) operand is False,
`has_unique_together_changed` returns True and the equality comparison in
that order returns False; the reverse comparison order does not detect the
flag, and when both `unique_together` values are empty
`has_unique_together_changed` is always False, so equality does not
distinguish the flags at all. -/
theorem c3_unique_together_flag_amended :
    (∀ A B : ModelSignature,
       A.unique_together = B.unique_together →
       B.unique_together.isEmpty = false →
       B.unique_together_applied = false →
       A.hasUniqueTogetherChanged B = true ∧
       ModelSignature.pyEq A B = false) ∧
    (∀ A B : ModelSignature,
       A.unique_together.isEmpty = true →
       B.unique_together.isEmpty = true →
       A.hasUniqueTogetherChanged B = false) := by
  constructor
  · intro A B hut hne happ
    have h1 : A.hasUniqueTogetherChanged B = true := by
      unfold ModelSignature.hasUniqueTogetherChanged
      rw [hut]
      simp [bne_self_eq_false, hne, happ]
    exact ⟨h1, by simp [ModelSignature.pyEq, h1]⟩
  · intro A B hA hB
    have hA2 : A.unique_together = [] := List.isEmpty_iff.mp hA
    have hB2 : B.unique_together = [] := List.isEmpty_iff.mp hB
    unfold ModelSignature.hasUniqueTogetherChanged
    rw [hA2, hB2]
    simp

theorem c3_counterexample :
    ModelSignature.pyEq (mkModelSigUT [] true) (mkModelSigUT [] false) = true ∧
    ModelSignature.pyEq (mkModelSigUT [] false) (mkModelSigUT [] true) = true ∧
    (mkModelSigUT [] true).hasUniqueTogetherChanged (mkModelSigUT [] false) =
      false ∧
    ModelSignature.pyEq (mkModelSigUT [["a", "b"]] false)
      (mkModelSigUT [["a", "b"]] true) = true := by
  refine ⟨rfl, rfl, rfl, rfl⟩

theorem c3_unique_together_flag_amended_witness :
    ((mkModelSigUT [["a", "b"]] true).unique_together =
       (mkModelSigUT [["a", "b"]] false).unique_together ∧
     (mkModelSigUT [["a", "b"]] false).unique_together.isEmpty = false ∧
     (mkModelSigUT [["a", "b"]] false).unique_together_applied = false) ∧
    ((mkModelSigUT [["a", "b"]] true).hasUniqueTogetherChanged
       (mkModelSigUT [["a", "b"]] false) = true ∧
     ModelSignature.pyEq (mkModelSigUT [["a", "b"]] true)
       (mkModelSigUT [["a", "b"]] false) = false) ∧
    (mkModelSigUT [] false).hasUniqueTogetherChanged (mkModelSigUT [] true) =
      false := by
  refine ⟨⟨rfl, rfl, rfl⟩, ?_, ?_⟩
  · exact c3_unique_together_flag_amended.1 (mkModelSigUT [["a", "b"]] true)
      (mkModelSigUT [["a", "b"]] false) rfl rfl rfl
  · exact c3_unique_together_flag_amended.2 (mkModelSigUT [] false)
      (mkModelSigUT [] true) rfl rfl

/-- C10: `IndexSignature` equality is inconsistent with its hash: for any
field list, the signature with name `None` and the signature with the empty
string name compare equal under `__eq__`, but their reprs — from which
`__hash__` is computed — differ, so the hash-bucketed set membership used by
Python set comparison fails to match them and `set`-based comparison (as in
`ModelSignature.__eq__`) reports the two singleton sets, and hence two
otherwise-identical model signatures, as unequal. -/
theorem c10_index_signature_hash_eq_inconsistent :
    (∀ fields : List String,
       IndexSignature.pyEq ⟨fields, none⟩ ⟨fields, some ""⟩ = true) ∧
    (∀ fields : List String,
       (IndexSignature.pyRepr ⟨fields, none⟩ ==
        IndexSignature.pyRepr ⟨fields, some ""⟩) = false) ∧
    (∀ fields : List String,
       indexSigSetEq [⟨fields, none⟩] [⟨fields, some ""⟩] = false) ∧
    IndexSignature.pyEq c10IdxNone c10IdxEmpty = true ∧
    ModelSignature.pyEq c10ModelA c10ModelB = false := by
  have hne : ∀ fields : List String,
      IndexSignature.pyRepr ⟨fields, none⟩ ≠
        IndexSignature.pyRepr ⟨fields, some ""⟩ := by
    intro fields heq
    have hlen := congrArg String.length heq
    simp only [IndexSignature.pyRepr, pyReprOptStr, String.length_append]
      at hlen
    have l1 : ("None" : String).length = 4 := rfl
    have l2 : ("\x27" : String).length = 1 := rfl
    have l3 : ("" : String).length = 0 := rfl
    rw [l1, l2, l3] at hlen
    omega
  have hbne : ∀ fields : List String,
      (IndexSignature.pyRepr ⟨fields, none⟩ ==
       IndexSignature.pyRepr ⟨fields, some ""⟩) = false :=
    fun fields => beq_eq_false_iff_ne.mpr (hne fields)
  refine ⟨?_, hbne, ?_, rfl, rfl⟩
  · intro fields
    simp [IndexSignature.pyEq, nameFalsy]
    rfl
  · intro fields
    have hbne2 : (IndexSignature.pyRepr ⟨fields, some ""⟩ ==
        IndexSignature.pyRepr ⟨fields, none⟩) = false :=
      beq_eq_false_iff_ne.mpr (Ne.symm (hne fields))
    simp [indexSigSetEq, hbne fields, hbne2]

/-- C1 (amended): diff is reflexive at every signature level outside the
legacy `unique_together` case: a field signature diffed against itself is
always empty, and a model, application, or project signature diffed against
itself is the empty structure provided every contained model signature has
an empty `unique_together` or has its applied flag set (the dictionary key
invariants of the class model are assumed).  A model in the legacy case
reports a `meta_changed` branch holding `unique_together` even against
itself. -/
theorem c1_diff_reflexive_amended
    (internalTypeDiffers : FieldType → FieldType → Bool) :
    (∀ f : FieldSignature, FieldSignature.fdiff internalTypeDiffers f f = []) ∧
    (∀ m : ModelSignature, m.wfFields = true → m.utNonLegacy = true →
       (ModelSignature.diff internalTypeDiffers m m).isEmpty = true) ∧
    (∀ a : AppSignature, a.wf = true →
       a.model_sigs.all ModelSignature.utNonLegacy = true →
       (AppSignature.diff internalTypeDiffers a a).isEmpty = true) ∧
    (∀ p : ProjectSignature, p.wf = true → p.utNonLegacy = true →
       (ProjectSignature.diff internalTypeDiffers p p).isEmpty = true) := by
  refine ⟨FieldSignature.fdiff_refl internalTypeDiffers, ?_, ?_, ?_⟩
  · intro m h1 h2
    rw [modelSig_diff_self internalTypeDiffers m h1 h2]
    rfl
  · intro a h1 h2
    rw [appSig_diff_self internalTypeDiffers a h1 h2]
    rfl
  · intro p h1 h2
    rw [projectSig_diff_self internalTypeDiffers p h1 h2]
    rfl

theorem c1_counterexample :
    legacyModelSig.unique_together = [["a", "b"]] ∧
    legacyModelSig.unique_together_applied = false ∧
    (ModelSignature.diff (fun _ _ => true) legacyModelSig
      legacyModelSig).isEmpty = false ∧
    (ModelSignature.diff (fun _ _ => true) legacyModelSig
      legacyModelSig).meta_changed = ["unique_together"] ∧
    (ProjectSignature.diff (fun _ _ => true)
      ⟨[⟨"app", [legacyModelSig]⟩]⟩ ⟨[⟨"app", [legacyModelSig]⟩]⟩).isEmpty =
      false := by
  refine ⟨rfl, rfl, rfl, rfl, rfl⟩

theorem c1_diff_reflexive_amended_witness :
    (c1Model.wfFields = true ∧ c1Model.utNonLegacy = true ∧
     c1App.wf = true ∧ c1App.model_sigs.all ModelSignature.utNonLegacy = true ∧
     c1Proj.wf = true ∧ c1Proj.utNonLegacy = true) ∧
    (FieldSignature.fdiff (fun _ _ => true) c1Field c1Field = [] ∧
     (ModelSignature.diff (fun _ _ => true) c1Model c1Model).isEmpty = true ∧
     (AppSignature.diff (fun _ _ => true) c1App c1App).isEmpty = true ∧
     (ProjectSignature.diff (fun _ _ => true) c1Proj c1Proj).isEmpty = true) := by
  refine ⟨⟨rfl, rfl, rfl, rfl, rfl, rfl⟩, ?_, ?_, ?_, ?_⟩
  · exact (c1_diff_reflexive_amended (fun _ _ => true)).1 c1Field
  · exact (c1_diff_reflexive_amended (fun _ _ => true)).2.1 c1Model rfl rfl
  · exact (c1_diff_reflexive_amended (fun _ _ => true)).2.2.1 c1App rfl rfl
  · exact (c1_diff_reflexive_amended (fun _ _ => true)).2.2.2 c1Proj rfl rfl

/-- C2 (code-bug evaluation): the filtering stage of `get_mutations` raises
`AttributeError` — rather than excluding the mutation — as soon as the
current application signature contains a model absent from the stored
signature, because the `old_app_sig.get_model_sig(...) != model_sig`
comparison dereferences `None`.  At an input with no newly-introduced model
the filter behaves as documented: mutations for unchanged models are
dropped, mutations for changed models are kept, `RenameModel` and
mutations with no `model_name` are always kept. -/
theorem c2_get_mutations_newly_introduced_raises :
    getMutationsFilter (some c2OldApp) (some c2NewApp)
      [PreparedMutation.modelMutation "DeleteField" "B"] = .error () ∧
    changedModelsFromNew c2OldApp c2NewApp.model_sigs = .error () ∧
    getMutationsFilter
      (some ⟨"app", [mkBareModelSig "A",
        { mkBareModelSig "B" with table_name := some "b_old" }]⟩)
      (some ⟨"app", [mkBareModelSig "A", mkBareModelSig "B"]⟩)
      [PreparedMutation.modelMutation "DeleteField" "A",
       PreparedMutation.modelMutation "DeleteField" "B",
       PreparedMutation.renameModel "C" "D",
       PreparedMutation.appMutation "SQLMutation"] =
      .ok [PreparedMutation.modelMutation "DeleteField" "B",
           PreparedMutation.renameModel "C" "D",
           PreparedMutation.appMutation "SQLMutation"] := by
  refine ⟨rfl, rfl, rfl⟩

end DjangoEvolution

